import Mathlib

/-!
Shallow embedding of the cloud-based digital library client
(React pages `Dashboard`, `BookDetails`, `Bookmarks`, `Home`, `Profile`
and the `LibraryContext` provider), together with theorems settling the
specification claims about search/filter logic, bookmark state, and
page rendering.

The static catalog `booksData` (imported from a JSON file in the
application) is modelled as an arbitrary list of books: every claim
quantifies over the books of the catalog, so all theorems are stated
for an arbitrary catalog parameter.
-/

/-- A review record of a book: `{user, rating, comment}` as in the data model. -/
structure Review where
  user : String
  rating : Nat
  comment : String
deriving DecidableEq, Repr

/-- A book of the static catalog, with the fields used by the client pages. -/
structure Book where
  id : String
  title : String
  author : String
  genre : String
  year : Nat
  language : String
  cover : String
  description : String
  reviews : List Review
deriving DecidableEq, Repr

/-- Character-list analogue of JavaScript `String.startsWith`:
`chStartsWith needle hay` is `true` when `needle` is an initial segment of `hay`. -/
def chStartsWith : List Char → List Char → Bool
  | [], _ => true
  | _ :: _, [] => false
  | a :: as, b :: bs => a == b && chStartsWith as bs

/-- Character-list analogue of JavaScript `String.includes`:
`chSub needle hay` is `true` when `needle` occurs contiguously inside `hay`. -/
def chSub (needle : List Char) : List Char → Bool
  | [] => chStartsWith needle []
  | c :: t => chStartsWith needle (c :: t) || chSub needle t

/-- JavaScript `s.includes(sub)` on strings: substring containment. -/
def strIncludes (s sub : String) : Bool :=
  chSub sub.data s.data

/-- JavaScript `s.toLowerCase()`: lowercase every character of the string. -/
def strToLower (s : String) : String :=
  ⟨s.data.map Char.toLower⟩

/-- Predicate of `Dashboard.filteredBooks` (src/pages of the client):
search match on title/author, equality match on genre and language. -/
def matchesFilter (searchQuery genreFilter languageFilter : String) (book : Book) : Bool :=
  let matchesSearch :=
    strIncludes (strToLower book.title) (strToLower searchQuery) ||
      strIncludes (strToLower book.author) (strToLower searchQuery)
  let matchesGenre := genreFilter == "all" || book.genre == genreFilter
  let matchesLanguage := languageFilter == "all" || book.language == languageFilter
  matchesSearch && matchesGenre && matchesLanguage

/-- The Dashboard page's `filteredBooks`: `booksData.filter(book => ...)`. -/
def filteredBooks (booksData : List Book)
    (searchQuery genreFilter languageFilter : String) : List Book :=
  booksData.filter (matchesFilter searchQuery genreFilter languageFilter)

/-- `addBookmark` of `LibraryProvider`: `setBookmarks(prev => [...prev, bookId])`. -/
def addBookmark (bookmarks : List String) (bookId : String) : List String :=
  bookmarks ++ [bookId]

/-- `removeBookmark` of `LibraryProvider`:
`setBookmarks(prev => prev.filter(id => id !== bookId))`. -/
def removeBookmark (bookmarks : List String) (bookId : String) : List String :=
  bookmarks.filter (fun id => id != bookId)

/-- `isBookmarked` of `LibraryProvider`: `bookmarks.includes(bookId)`. -/
def isBookmarked (bookmarks : List String) (bookId : String) : Bool :=
  bookmarks.contains bookId

/-- The bookmark count shown on the Profile page: `bookmarks.length`. -/
def profileBookmarkCount (bookmarks : List String) : Nat :=
  bookmarks.length

/-- Render outcome of the `BookDetails` page: either the fallback message or
the found book's detail view. -/
inductive BookDetailsRender where
  | notFound (message : String) : BookDetailsRender
  | details (book : Book) : BookDetailsRender
deriving DecidableEq, Repr

/-- The `BookDetails` page's lookup: `booksData.find(b => b.id === id)`. -/
def bookDetailsFind (booksData : List Book) (id : String) : Option Book :=
  booksData.find? (fun b => b.id == id)

/-- The `BookDetails` page: when the lookup fails it renders the
"Book not found" fallback, otherwise the book's details. -/
def bookDetailsPage (booksData : List Book) (id : String) : BookDetailsRender :=
  match bookDetailsFind booksData id with
  | none => BookDetailsRender.notFound "Book not found"
  | some book => BookDetailsRender.details book

/-- Client-side state visible to the `BookDetails` page: the static catalog
(a module-level constant), the review textarea, the star rating, and the
toast titles shown so far. -/
structure BookDetailsState where
  booksData : List Book
  review : String
  rating : Nat
  toasts : List String
deriving DecidableEq, Repr

/-- `handleAddReview` of `BookDetails`: shows the toast titled
"Review Added!" and clears the review textarea; nothing else changes. -/
def handleAddReview (s : BookDetailsState) : BookDetailsState :=
  { s with toasts := s.toasts ++ ["Review Added!"], review := "" }

/-- The `Bookmarks` page's list: `booksData.filter(book => bookmarks.includes(book.id))`. -/
def bookmarkedBooks (booksData : List Book) (bookmarks : List String) : List Book :=
  booksData.filter (fun book => bookmarks.contains book.id)

/-- Render outcome of the `Bookmarks` page: the grid of bookmarked books or
the "No bookmarks yet" empty state. -/
inductive BookmarksRender where
  | grid (books : List Book) : BookmarksRender
  | emptyState : BookmarksRender
deriving DecidableEq, Repr

/-- The `Bookmarks` page: `bookmarkedBooks.length > 0 ? grid : empty state`. -/
def bookmarksPage (booksData : List Book) (bookmarks : List String) : BookmarksRender :=
  if (bookmarkedBooks booksData bookmarks).length > 0 then
    BookmarksRender.grid (bookmarkedBooks booksData bookmarks)
  else
    BookmarksRender.emptyState

/-- The `Home` page's `featuredBooks`: `booksData.slice(0, 6)`. -/
def featuredBooks (booksData : List Book) : List Book :=
  booksData.take 6

/-- The featured-books section as a function of the whole `Home` page input,
search query included: the source computes `featuredBooks` without reading
`searchQuery`. -/
def homeFeatured (booksData : List Book) (_searchQuery : String) : List Book :=
  featuredBooks booksData

/-- The UI's bookmark-toggle discipline (`BookCard` and `BookDetails` both render
`bookmarked ? removeBookmark(id) : addBookmark(id)`): a bookmarks state is
reachable when it arises from the empty initial state by `removeBookmark`
calls and by `addBookmark` calls made only while the identifier is not yet
bookmarked. -/
inductive BookmarksReachable : List String → Prop where
  | start : BookmarksReachable []
  | add (s : List String) (b : String) : BookmarksReachable s →
      isBookmarked s b = false → BookmarksReachable (addBookmark s b)
  | remove (s : List String) (b : String) : BookmarksReachable s →
      BookmarksReachable (removeBookmark s b)

/-- Auxiliary: the empty needle is a substring of every character list. -/
theorem chSub_nil (l : List Char) : chSub [] l = true := by
  cases l <;> rfl

/-- Auxiliary: `isBookmarked` decides list membership. -/
theorem isBookmarked_iff_mem (s : List String) (b : String) :
    isBookmarked s b = true ↔ b ∈ s := by
  simp [isBookmarked]

/-- Auxiliary: membership in `filteredBooks` unfolded to the filter predicate. -/
theorem mem_filteredBooks (booksData : List Book) (q g l : String) (b : Book) :
    b ∈ filteredBooks booksData q g l ↔ b ∈ booksData ∧ matchesFilter q g l b = true := by
  simp [filteredBooks, List.mem_filter]

/-- Claim C1: a book of the static catalog is in the Dashboard's filtered result
if and only if (its lowercased title or lowercased author contains the lowercased
query) and (the genre filter is "all" or equals its genre) and (the language
filter is "all" or equals its language). -/
theorem filteredBooks_mem_iff (booksData : List Book) (q g l : String) (b : Book)
    (hb : b ∈ booksData) :
    b ∈ filteredBooks booksData q g l ↔
      ((strIncludes (strToLower b.title) (strToLower q) = true ∨
          strIncludes (strToLower b.author) (strToLower q) = true) ∧
        (g = "all" ∨ b.genre = g) ∧
        (l = "all" ∨ b.language = l)) := by
  rw [mem_filteredBooks]
  simp [matchesFilter, hb, Bool.and_eq_true, Bool.or_eq_true, and_assoc]

/-- Witness for C1 at a concrete catalog and query. -/
theorem filteredBooks_mem_iff_witness :
    let b : Book := ⟨"1", "Dune", "Frank Herbert", "Sci-Fi", 1965, "English", "c", "d", []⟩
    b ∈ filteredBooks [b] "dune" "all" "English" ↔
      ((strIncludes (strToLower b.title) (strToLower "dune") = true ∨
          strIncludes (strToLower b.author) (strToLower "dune") = true) ∧
        ("all" = "all" ∨ b.genre = "all") ∧
        ("English" = "all" ∨ b.language = "English")) :=
  filteredBooks_mem_iff
    [⟨"1", "Dune", "Frank Herbert", "Sci-Fi", 1965, "English", "c", "d", []⟩]
    "dune" "all" "English"
    ⟨"1", "Dune", "Frank Herbert", "Sci-Fi", 1965, "English", "c", "d", []⟩
    (List.mem_singleton.mpr rfl)

/-- Claim C6: the Dashboard's filtered result is a subsequence of the static
catalog (its elements come from the catalog, in catalog order, without
repetition), so its length never exceeds the catalog's length. -/
theorem filteredBooks_sublist (booksData : List Book) (q g l : String) :
    List.Sublist (filteredBooks booksData q g l) booksData ∧
      (filteredBooks booksData q g l).length ≤ booksData.length := by
  refine ⟨List.filter_sublist booksData, ?_⟩
  exact List.Sublist.length_le (List.filter_sublist booksData)

/-- Claim C8: with the empty search query and both filters set to "all",
the Dashboard's filtered result is the entire static catalog. -/
theorem filteredBooks_empty_query (booksData : List Book) :
    filteredBooks booksData "" "all" "all" = booksData := by
  unfold filteredBooks
  apply List.filter_eq_self.mpr
  intro b _
  simp [matchesFilter, strIncludes, chSub_nil]
  left
  have h : (strToLower "").data = [] := rfl
  rw [h]
  exact chSub_nil _

/-- Claim C3: after `addBookmark b` the identifier `b` is bookmarked, after
`removeBookmark b` it is not, and from a state where `b` is not bookmarked,
`addBookmark b` followed by `removeBookmark b` restores the original state. -/
theorem bookmark_toggle (s : List String) (b : String) :
    isBookmarked (addBookmark s b) b = true ∧
      isBookmarked (removeBookmark s b) b = false ∧
      (isBookmarked s b = false → removeBookmark (addBookmark s b) b = s) := by
  refine ⟨?_, ?_, ?_⟩
  · rw [isBookmarked_iff_mem]
    simp [addBookmark]
  · rw [Bool.eq_false_iff]
    intro hmem
    rw [isBookmarked_iff_mem] at hmem
    simp [removeBookmark, List.mem_filter] at hmem
  · intro h
    have hb : b ∉ s := by
      intro hmem
      rw [← isBookmarked_iff_mem s b] at hmem
      rw [h] at hmem
      exact Bool.false_ne_true hmem
    unfold removeBookmark addBookmark
    rw [List.filter_append]
    simp only [List.filter_cons, List.filter_nil]
    have hbb : (b != b) = false := by simp
    rw [hbb]
    simp only [Bool.false_eq_true, if_false, List.append_nil]
    apply List.filter_eq_self.mpr
    intro a ha
    simp only [bne_iff_ne, ne_eq, decide_eq_true_eq]
    intro hab
    exact hb (hab ▸ ha)

/-- Witness for C3 at a concrete bookmarks state. -/
theorem bookmark_toggle_witness :
    isBookmarked (addBookmark ["b2"] "b1") "b1" = true ∧
      isBookmarked (removeBookmark ["b2"] "b1") "b1" = false ∧
      (isBookmarked ["b2"] "b1" = false → removeBookmark (addBookmark ["b2"] "b1") "b1" = ["b2"]) :=
  bookmark_toggle ["b2"] "b1"

/-- Claim C7: `removeBookmark b` and `addBookmark b` do not change whether any
other identifier `x` is bookmarked, and `removeBookmark` keeps the remaining
identifiers in their original relative order (the result is a sublist). -/
theorem bookmark_frame (s : List String) (b x : String) (hx : x ≠ b) :
    isBookmarked (removeBookmark s b) x = isBookmarked s x ∧
      List.Sublist (removeBookmark s b) s ∧
      isBookmarked (addBookmark s b) x = isBookmarked s x := by
  refine ⟨?_, List.filter_sublist s, ?_⟩
  · rw [Bool.eq_iff_iff, isBookmarked_iff_mem, isBookmarked_iff_mem]
    simp only [removeBookmark, List.mem_filter, bne_iff_ne, ne_eq, decide_eq_true_eq]
    exact ⟨fun h => h.1, fun h => ⟨h, hx⟩⟩
  · rw [Bool.eq_iff_iff, isBookmarked_iff_mem, isBookmarked_iff_mem]
    simp only [addBookmark, List.mem_append, List.mem_singleton]
    exact ⟨fun h => h.resolve_right hx, fun h => Or.inl h⟩

/-- Witness for C7 at a concrete state and pair of identifiers. -/
theorem bookmark_frame_witness :
    isBookmarked (removeBookmark ["x", "b"] "b") "x" = isBookmarked ["x", "b"] "x" ∧
      List.Sublist (removeBookmark ["x", "b"] "b") ["x", "b"] ∧
      isBookmarked (addBookmark ["x", "b"] "b") "x" = isBookmarked ["x", "b"] "x" :=
  bookmark_frame ["x", "b"] "b" "x" (by decide)

/-- Counterexample to claim C2 as stated: the raw `addBookmark` operation
appends unconditionally, so the two-step sequence `addBookmark "b1"`,
`addBookmark "b1"` from the empty state produces a duplicated identifier,
and the Profile page's count (the list length) is 2 while only one distinct
book is bookmarked. -/
theorem addBookmark_dup_counterexample :
    addBookmark (addBookmark [] "b1") "b1" = ["b1", "b1"] ∧
      ¬ (addBookmark (addBookmark [] "b1") "b1").Nodup ∧
      profileBookmarkCount (addBookmark (addBookmark [] "b1") "b1") = 2 ∧
      (addBookmark (addBookmark [] "b1") "b1").dedup.length = 1 := by
  refine ⟨rfl, ?_, rfl, by decide⟩
  decide

/-- Claim C2 (amended): for every sequence of bookmark operations the UI can
issue — `addBookmark` only from a state where the identifier is not yet
bookmarked, as the toggle buttons guarantee, and `removeBookmark` freely —
the bookmarks list has no duplicate identifier, and the count shown on the
Profile page equals the number of distinct bookmarked identifiers. -/
theorem bookmarks_nodup (s : List String) (h : BookmarksReachable s) :
    s.Nodup ∧ profileBookmarkCount s = s.dedup.length := by
  have hnd : s.Nodup := by
    induction h with
    | start => exact List.nodup_nil
    | add s b _ hnb ih =>
        have hb : b ∉ s := by
          intro hmem
          rw [← isBookmarked_iff_mem s b] at hmem
          rw [hnb] at hmem
          exact Bool.false_ne_true hmem
        simp [addBookmark, List.nodup_append, ih, hb]
    | remove s b _ ih =>
        unfold removeBookmark
        exact ih.filter _
  refine ⟨hnd, ?_⟩
  rw [List.Nodup.dedup hnd]
  rfl

/-- Witness for the amended claim C2 at a concrete reachable state. -/
theorem bookmarks_nodup_witness :
    (addBookmark [] "b1").Nodup ∧
      profileBookmarkCount (addBookmark [] "b1") = (addBookmark [] "b1").dedup.length :=
  bookmarks_nodup (addBookmark [] "b1")
    (BookmarksReachable.add [] "b1" BookmarksReachable.start rfl)

/-- Auxiliary: when catalog ids are distinct, the lookup of a present id
returns exactly that book. -/
theorem bookDetailsFind_eq_some (booksData : List Book) (id : String)
    (hids : (booksData.map Book.id).Nodup) (b : Book) (hb : b ∈ booksData)
    (hid : b.id = id) :
    bookDetailsFind booksData id = some b := by
  induction booksData with
  | nil => cases hb
  | cons a t ih =>
      simp only [List.map_cons, List.nodup_cons] at hids
      rcases List.mem_cons.mp hb with rfl | hbt
      · unfold bookDetailsFind
        rw [List.find?_cons_of_pos (p := fun k => k.id == id) t (by simpa using hid)]
      · have haid : ¬ ((fun k => k.id == id) a = true) := by
          simp only [beq_iff_eq]
          intro he
          exact hids.1 (by rw [he, ← hid]; exact List.mem_map_of_mem Book.id hbt)
        unfold bookDetailsFind at ih ⊢
        rw [List.find?_cons_of_neg (p := fun k => k.id == id) t haid]
        exact ih hids.2 hbt

/-- Claim C4: with distinct catalog ids, a route id matching no catalog book
renders the "Book not found" fallback, and a route id matching a catalog book
renders that book's details. -/
theorem bookDetailsPage_spec (booksData : List Book) (id : String)
    (hids : (booksData.map Book.id).Nodup) :
    ((∀ b ∈ booksData, b.id ≠ id) →
        bookDetailsPage booksData id = BookDetailsRender.notFound "Book not found") ∧
      (∀ b ∈ booksData, b.id = id →
        bookDetailsPage booksData id = BookDetailsRender.details b) := by
  constructor
  · intro hnone
    have hfind : bookDetailsFind booksData id = none := by
      apply List.find?_eq_none.mpr
      intro b hb
      simpa using hnone b hb
    simp [bookDetailsPage, hfind]
  · intro b hb hid
    have hfind := bookDetailsFind_eq_some booksData id hids b hb hid
    simp [bookDetailsPage, hfind]

/-- Witness for C4 at a concrete two-book catalog. -/
theorem bookDetailsPage_spec_witness :
    let k1 : Book := ⟨"1", "A", "a", "g", 2000, "en", "c", "d", []⟩
    let k2 : Book := ⟨"2", "B", "b", "g", 2001, "en", "c", "d", []⟩
    ((∀ b ∈ [k1, k2], b.id ≠ "9") →
        bookDetailsPage [k1, k2] "9" = BookDetailsRender.notFound "Book not found") ∧
      (∀ b ∈ [k1, k2], b.id = "9" →
        bookDetailsPage [k1, k2] "9" = BookDetailsRender.details b) :=
  bookDetailsPage_spec
    [⟨"1", "A", "a", "g", 2000, "en", "c", "d", []⟩,
      ⟨"2", "B", "b", "g", 2001, "en", "c", "d", []⟩]
    "9" (by decide)

/-- Claim C5: `handleAddReview` leaves the static catalog — in particular every
book's ordered review list — unchanged; it only records a toast and clears the
review textarea, and no client operation takes the catalog as mutable state. -/
theorem handleAddReview_frame (s : BookDetailsState) :
    (handleAddReview s).booksData = s.booksData ∧
      List.map Book.reviews (handleAddReview s).booksData =
        List.map Book.reviews s.booksData ∧
      (handleAddReview s).toasts = s.toasts ++ ["Review Added!"] ∧
      (handleAddReview s).review = "" :=
  ⟨rfl, rfl, rfl, rfl⟩

/-- Claim C9: the Bookmarks page lists exactly the catalog books whose id is
bookmarked, in catalog order (a sublist of the catalog, so dangling bookmark
ids are silently omitted), and renders the empty state exactly when that list
is empty. -/
theorem bookmarksPage_spec (booksData : List Book) (bm : List String) :
    (∀ b, b ∈ bookmarkedBooks booksData bm ↔ b ∈ booksData ∧ b.id ∈ bm) ∧
      List.Sublist (bookmarkedBooks booksData bm) booksData ∧
      bookmarksPage booksData bm =
        (if bookmarkedBooks booksData bm = [] then BookmarksRender.emptyState
          else BookmarksRender.grid (bookmarkedBooks booksData bm)) := by
  refine ⟨?_, List.filter_sublist booksData, ?_⟩
  · intro b
    simp [bookmarkedBooks, List.mem_filter]
  · by_cases he : bookmarkedBooks booksData bm = []
    · simp [bookmarksPage, he]
    · have hpos : 0 < (bookmarkedBooks booksData bm).length := List.length_pos.mpr he
      simp [bookmarksPage, he, hpos]

/-- Claim C10: the Home page's featured section is exactly the first
`min 6 (catalog length)` books of the catalog, never more than 6, and does
not depend on the page's search input. -/
theorem homeFeatured_spec (booksData : List Book) (q1 q2 : String) :
    homeFeatured booksData q1 = booksData.take (min 6 booksData.length) ∧
      (homeFeatured booksData q1).length = min 6 booksData.length ∧
      (homeFeatured booksData q1).length ≤ 6 ∧
      homeFeatured booksData q1 = homeFeatured booksData q2 := by
  refine ⟨?_, ?_, ?_, rfl⟩
  · show featuredBooks booksData = booksData.take (min 6 booksData.length)
    unfold featuredBooks
    rw [← List.take_take, List.take_length]
  · simp [homeFeatured, featuredBooks, List.length_take]
  · simp [homeFeatured, featuredBooks, List.length_take]
